import Mathlib

/-!
Verification development for the `google-document-ai-to-bitwarden-json-extractor`
repository (`src/main.py`).

The program is a linear glue pipeline:
* `process_document` sends a file to an external extraction service and folds the
  returned entities into a flat string-to-string dictionary;
* `map_data_to_bitwarden` loads a JSON template and overlays the extracted
  "name" / "dob" / "address" fields onto fixed template slots;
* `main` chooses between the live call and a hardcoded fallback record, writes
  `export.json`, then invokes the mapper, catching every error at the top level.

Python dictionaries are embedded as association lists with unique keys in
insertion order; `d[k] = v` replaces the (unique) existing binding in place or
appends a fresh one, which is `dictSet` below.  JSON values are the inductive
`Json`.  Fallible code returns `Except`.
-/

set_option autoImplicit false

/-- Python `d[k]` as a total lookup: `none` models a `KeyError`. -/
def dictGet {α : Type} : List (String × α) → String → Option α
  | [], _ => none
  | (k', v) :: d, k => if k' = k then some v else dictGet d k

/-- Python `d[k] = v`: replace the binding in place when the key is present
(Python dict keys are unique, so replacing the first occurrence is exact),
otherwise append the new binding at the end, as Python dicts do. -/
def dictSet {α : Type} : List (String × α) → String → α → List (String × α)
  | [], k, v => [(k, v)]
  | (k', v') :: d, k, v =>
    if k' = k then (k, v) :: d else (k', v') :: dictSet d k v

/-- JSON values, as produced by `json.load` / consumed by `json.dump`.
Objects keep their key order, as Python dicts do. -/
inductive Json where
  | null : Json
  | bool : Bool → Json
  | num : Int → Json
  | str : String → Json
  | arr : List Json → Json
  | obj : List (String × Json) → Json

/-- Reading a key of a JSON value, Python's `t[k]` on a parsed document:
`none` models both a `KeyError` (key absent) and a `TypeError`
(indexing a non-object with a string). -/
def jget (t : Json) (k : String) : Option Json :=
  match t with
  | .obj fs => dictGet fs k
  | _ => none

/-- Two-level read, Python's `t[k1][k2]`. -/
def jget2 (t : Json) (k1 k2 : String) : Option Json :=
  match jget t k1 with
  | some u => jget u k2
  | none => none

/-- Python's `s.split(sep)` for a one-character separator, on the character
list of the string: empty chunks are kept and the result is never empty
(`"".split(" ") == [""]`). -/
def splitOnChar (c : Char) : List Char → List (List Char)
  | [] => [[]]
  | x :: xs =>
    if x = c then [] :: splitOnChar c xs
    else
      match splitOnChar c xs with
      | [] => [[x]]
      | y :: ys => (x :: y) :: ys

/-- One entity of the Document AI response: a type name, an optional
normalized value (`none` models a falsy `entity.normalized_value`), and the
raw mention text. -/
structure Entity where
  type_ : String
  normalized_value : Option String
  mention_text : String

/-- The value stored for one entity (`src/main.py` lines 44-49): the
normalized text when the entity carries one, otherwise the raw mention text. -/
def entityValue (e : Entity) : String :=
  match e.normalized_value with
  | some t => t
  | none => e.mention_text

/-- The pure core of `process_document` (`src/main.py` lines 40-51): fold the
response entities into the `extracted_data` dictionary, later entities with the
same type overwriting earlier ones. -/
def processEntities (entities : List Entity) : List (String × String) :=
  entities.foldl (fun d e => dictSet d e.type_ (entityValue e)) []

/-! ### Dictionary lemmas -/

theorem dictGet_dictSet_self {α : Type} (d : List (String × α)) (k : String) (v : α) :
    dictGet (dictSet d k v) k = some v := by
  induction d with
  | nil => simp [dictSet, dictGet]
  | cons p d ih =>
    obtain ⟨k', v'⟩ := p
    by_cases h : k' = k
    · simp [dictSet, dictGet, h]
    · simp [dictSet, dictGet, h, ih]

theorem dictGet_dictSet_ne {α : Type} (d : List (String × α)) (k k' : String) (v : α)
    (h : k' ≠ k) : dictGet (dictSet d k v) k' = dictGet d k' := by
  induction d with
  | nil => simp [dictSet, dictGet, Ne.symm h]
  | cons p d ih =>
    obtain ⟨k₀, v₀⟩ := p
    by_cases h₀ : k₀ = k
    · subst h₀
      simp [dictSet, dictGet, Ne.symm h]
    · simp only [dictSet, if_neg h₀, dictGet]
      by_cases h₁ : k₀ = k'
      · simp [dictGet, h₁]
      · simp [dictGet, h₁, ih]

theorem dictSet_eq_of_dictGet {α : Type} (d : List (String × α)) (k : String) (v : α)
    (h : dictGet d k = some v) : dictSet d k v = d := by
  induction d with
  | nil => simp [dictGet] at h
  | cons p d ih =>
    obtain ⟨k₀, v₀⟩ := p
    by_cases h₀ : k₀ = k
    · subst h₀
      simp [dictGet] at h
      simp [dictSet, h]
    · simp [dictGet, h₀] at h
      simp [dictSet, h₀, ih h]

theorem dictGet_isSome_dictSet {α : Type} (d : List (String × α)) (k j : String) (v : α)
    (h : (dictGet d j).isSome) : (dictGet (dictSet d k v) j).isSome := by
  by_cases hj : j = k
  · subst hj
    simp [dictGet_dictSet_self]
  · rwa [dictGet_dictSet_ne d k j v hj]

/-! ### Split lemmas -/

theorem splitOnChar_ne_nil (c : Char) (l : List Char) : splitOnChar c l ≠ [] := by
  induction l with
  | nil => simp [splitOnChar]
  | cons x xs ih =>
    by_cases h : x = c
    · simp [splitOnChar, h]
    · simp only [splitOnChar, if_neg h]
      cases hs : splitOnChar c xs with
      | nil => simp
      | cons y ys => simp

theorem splitOnChar_cons_sep (c : Char) (l : List Char) :
    splitOnChar c (c :: l) = [] :: splitOnChar c l := by
  simp [splitOnChar]

theorem splitOnChar_concat_sep (c : Char) (l : List Char) :
    splitOnChar c (l ++ [c]) = splitOnChar c l ++ [[]] := by
  induction l with
  | nil => simp [splitOnChar]
  | cons x xs ih =>
    by_cases h : x = c
    · simp [splitOnChar, h, ih]
    · cases hs : splitOnChar c xs with
      | nil => exact absurd hs (splitOnChar_ne_nil c xs)
      | cons y ys => simp [splitOnChar, if_neg h, ih, hs]

/-! ### The extraction client's entity fold (claim C5 groundwork) -/

theorem processEntities_foldl (es : List Entity) (d : List (String × String)) (t : String) :
    dictGet (es.foldl (fun d e => dictSet d e.type_ (entityValue e)) d) t =
      match (es.filter (fun e => e.type_ == t)).getLast? with
      | some e => some (entityValue e)
      | none => dictGet d t := by
  induction es generalizing d with
  | nil => simp
  | cons e es ih =>
    rw [List.foldl_cons, ih]
    by_cases h : e.type_ = t
    · rw [List.filter_cons_of_pos (by simp [h]), List.getLast?_cons]
      cases hfe : (es.filter (fun e => e.type_ == t)).getLast? with
      | some e' => rfl
      | none =>
        subst h
        simp [dictGet_dictSet_self]
    · rw [List.filter_cons_of_neg (by simp [h])]
      cases hfe : (es.filter (fun e => e.type_ == t)).getLast? with
      | some e' => rfl
      | none => exact dictGet_dictSet_ne d e.type_ t (entityValue e) (Ne.symm h)

/-- C5: for every entity returned by the extraction service, the extraction
client stores the entity's normalized text when a normalized value is carried
and otherwise the raw mention text (`entityValue`), and when several entities
share the same type, the value kept in the result is the one of the last
entity processed in response order. -/
theorem C5_extraction_last_wins (es : List Entity) (t : String) :
    dictGet (processEntities es) t =
      ((es.filter (fun e => e.type_ == t)).getLast?).map entityValue := by
  rw [processEntities, processEntities_foldl]
  cases (es.filter (fun e => e.type_ == t)).getLast? with
  | some e => rfl
  | none => rfl

/-! ### The template mapper (`map_data_to_bitwarden`, `src/main.py` lines 53-91) -/

/-- The error classes of `src/main.py`: I/O errors (missing or unreadable
files), service errors (network, auth, malformed response), and data errors
(`KeyError` / `TypeError` while indexing the parsed JSON). -/
inductive PyErr where
  | ioErr : String → PyErr
  | svcErr : String → PyErr
  | dataErr : String → PyErr

/-- The "name" rule (`src/main.py` lines 69-75), given the result of the
`"name" in extracted_data` lookup: split the value on the space character,
store the first part in `identity.firstName` and the last part in
`identity.lastName`, and set the top-level `name` to the value followed by
`" ID"`.  `splitOnChar` never returns `[]`, so the `headD` / `getLastD`
defaults are never used, matching Python's `parts[0]` / `parts[-1]`.
Errors model the `KeyError` / `TypeError` Python raises when the template
lacks the `identity` object. -/
def applyNameRule (nameVal : Option String) (t : Json) : Except PyErr Json :=
  match nameVal with
  | none => .ok t
  | some nm =>
    let parts := splitOnChar ' ' nm.data
    match t with
    | .obj fs =>
      match dictGet fs "identity" with
      | some (.obj ifs) =>
        .ok (.obj (dictSet
          (dictSet fs "identity"
            (.obj (dictSet
              (dictSet ifs "firstName" (.str (String.mk (parts.headD []))))
              "lastName" (.str (String.mk (parts.getLastD []))))))
          "name" (.str (nm ++ " ID"))))
      | some _ => .error (PyErr.dataErr "identity is not an object")
      | none => .error (PyErr.dataErr "KeyError: identity")
    | _ => .error (PyErr.dataErr "template is not an object")

/-- Python's `x == "DOB"` comparison on a parsed JSON value: true exactly for
the equal string, false (without error) for every non-string value. -/
def jsonEqStr (j : Json) (s : String) : Bool :=
  match j with
  | .str n => n == s
  | _ => false

/-- The loop of the "dob" rule (`src/main.py` lines 79-82): walk the `fields`
list, and at the first entry whose `"name"` is the string `"DOB"`, set its
`"value"` and stop (`break`), leaving the remaining entries unvisited.
Entries visited before a match must be objects with a `"name"` key, exactly
as Python's `field["name"]` requires; a non-string `"name"` simply compares
unequal to `"DOB"`. -/
def updateDOB (v : String) : List Json → Except PyErr (List Json)
  | [] => .ok []
  | f :: rest =>
    match f with
    | .obj ffs =>
      match dictGet ffs "name" with
      | some nv =>
        if jsonEqStr nv "DOB" then
          .ok (Json.obj (dictSet ffs "value" (.str v)) :: rest)
        else
          match updateDOB v rest with
          | .ok rest' => .ok (f :: rest')
          | .error e => .error e
      | none => .error (PyErr.dataErr "KeyError: name")
    | _ => .error (PyErr.dataErr "field is not an object")

/-- The "dob" rule (`src/main.py` lines 77-82), given the result of the
`"dob" in extracted_data` lookup. -/
def applyDobRule (dobVal : Option String) (t : Json) : Except PyErr Json :=
  match dobVal with
  | none => .ok t
  | some v =>
    match t with
    | .obj fs =>
      match dictGet fs "fields" with
      | some (.arr fl) =>
        match updateDOB v fl with
        | .ok fl' => .ok (.obj (dictSet fs "fields" (.arr fl')))
        | .error e => .error e
      | some _ => .error (PyErr.dataErr "fields is not a list")
      | none => .error (PyErr.dataErr "KeyError: fields")
    | _ => .error (PyErr.dataErr "template is not an object")

/-- The "address" rule (`src/main.py` lines 84-85), given the result of the
`"address" in extracted_data` lookup: store the value directly in
`identity.address1`. -/
def applyAddressRule (addressVal : Option String) (t : Json) : Except PyErr Json :=
  match addressVal with
  | none => .ok t
  | some a =>
    match t with
    | .obj fs =>
      match dictGet fs "identity" with
      | some (.obj ifs) =>
        .ok (.obj (dictSet fs "identity" (.obj (dictSet ifs "address1" (.str a)))))
      | some _ => .error (PyErr.dataErr "identity is not an object")
      | none => .error (PyErr.dataErr "KeyError: identity")
    | _ => .error (PyErr.dataErr "template is not an object")

/-- `map_data_to_bitwarden` (`src/main.py` lines 53-89), with the template
passed in as the parsed JSON it reads from `bitwarden_id_template.json` and
the returned value being the document it writes to `import_bitwarden.json`.
The three rules run in program order; each consults only its own key of
`extracted_data`. -/
def map_data_to_bitwarden (extracted_data : List (String × String)) (template : Json) :
    Except PyErr Json :=
  match applyNameRule (dictGet extracted_data "name") template with
  | .error e => .error e
  | .ok t1 =>
    match applyDobRule (dictGet extracted_data "dob") t1 with
    | .error e => .error e
    | .ok t2 => applyAddressRule (dictGet extracted_data "address") t2

/-- Does a `fields` entry have `"name"` equal to the string `"DOB"`? -/
def isDOBField : Json → Bool
  | .obj ffs =>
    match dictGet ffs "name" with
    | some nv => jsonEqStr nv "DOB"
    | none => false
  | _ => false

/-- The first entry of the template's `fields` sequence named `"DOB"`. -/
def firstDOB (t : Json) : Option Json :=
  match jget t "fields" with
  | some (.arr fl) => fl.find? isDOBField
  | _ => none

/-! ### Characterizations of the three mapper rules -/

theorem jsonEqStr_eq_true (j : Json) (s : String) (h : jsonEqStr j s = true) :
    j = .str s := by
  cases j <;> simp_all [jsonEqStr]

theorem applyNameRule_none_ok (t t' : Json) (h : applyNameRule none t = .ok t') :
    t' = t := by
  simp [applyNameRule] at h
  exact h.symm

theorem applyDobRule_none_ok (t t' : Json) (h : applyDobRule none t = .ok t') :
    t' = t := by
  simp [applyDobRule] at h
  exact h.symm

theorem applyAddressRule_none_ok (t t' : Json) (h : applyAddressRule none t = .ok t') :
    t' = t := by
  simp [applyAddressRule] at h
  exact h.symm

theorem applyNameRule_some_ok (nm : String) (t t' : Json)
    (h : applyNameRule (some nm) t = .ok t') :
    ∃ fs ifs, t = .obj fs ∧ dictGet fs "identity" = some (.obj ifs) ∧
      t' = .obj (dictSet
        (dictSet fs "identity"
          (.obj (dictSet
            (dictSet ifs "firstName"
              (.str (String.mk ((splitOnChar ' ' nm.data).headD []))))
            "lastName" (.str (String.mk ((splitOnChar ' ' nm.data).getLastD []))))))
        "name" (.str (nm ++ " ID"))) := by
  cases t with
  | obj fs =>
    cases hi : dictGet fs "identity" with
    | some u =>
      cases u with
      | obj ifs =>
        refine ⟨fs, ifs, rfl, hi, ?_⟩
        simp only [applyNameRule, hi, Except.ok.injEq] at h
        exact h.symm
      | null => simp [applyNameRule, hi] at h
      | bool b => simp [applyNameRule, hi] at h
      | num n => simp [applyNameRule, hi] at h
      | str s => simp [applyNameRule, hi] at h
      | arr l => simp [applyNameRule, hi] at h
    | none => simp [applyNameRule, hi] at h
  | null => simp [applyNameRule] at h
  | bool b => simp [applyNameRule] at h
  | num n => simp [applyNameRule] at h
  | str s => simp [applyNameRule] at h
  | arr l => simp [applyNameRule] at h

theorem applyAddressRule_some_ok (a : String) (t t' : Json)
    (h : applyAddressRule (some a) t = .ok t') :
    ∃ fs ifs, t = .obj fs ∧ dictGet fs "identity" = some (.obj ifs) ∧
      t' = .obj (dictSet fs "identity" (.obj (dictSet ifs "address1" (.str a)))) := by
  cases t with
  | obj fs =>
    cases hi : dictGet fs "identity" with
    | some u =>
      cases u with
      | obj ifs =>
        refine ⟨fs, ifs, rfl, hi, ?_⟩
        simp [applyAddressRule, hi] at h
        exact h.symm
      | null => simp [applyAddressRule, hi] at h
      | bool b => simp [applyAddressRule, hi] at h
      | num n => simp [applyAddressRule, hi] at h
      | str s => simp [applyAddressRule, hi] at h
      | arr l => simp [applyAddressRule, hi] at h
    | none => simp [applyAddressRule, hi] at h
  | null => simp [applyAddressRule] at h
  | bool b => simp [applyAddressRule] at h
  | num n => simp [applyAddressRule] at h
  | str s => simp [applyAddressRule] at h
  | arr l => simp [applyAddressRule] at h

theorem applyDobRule_some_ok (v : String) (t t' : Json)
    (h : applyDobRule (some v) t = .ok t') :
    ∃ fs fl fl', t = .obj fs ∧ dictGet fs "fields" = some (.arr fl) ∧
      updateDOB v fl = .ok fl' ∧ t' = .obj (dictSet fs "fields" (.arr fl')) := by
  cases t with
  | obj fs =>
    cases hi : dictGet fs "fields" with
    | some u =>
      cases u with
      | arr fl =>
        cases hu : updateDOB v fl with
        | ok fl' =>
          refine ⟨fs, fl, fl', rfl, hi, hu, ?_⟩
          simp [applyDobRule, hi, hu] at h
          exact h.symm
        | error e => simp [applyDobRule, hi, hu] at h
      | null => simp [applyDobRule, hi] at h
      | bool b => simp [applyDobRule, hi] at h
      | num n => simp [applyDobRule, hi] at h
      | str s => simp [applyDobRule, hi] at h
      | obj l => simp [applyDobRule, hi] at h
    | none => simp [applyDobRule, hi] at h
  | null => simp [applyDobRule] at h
  | bool b => simp [applyDobRule] at h
  | num n => simp [applyDobRule] at h
  | str s => simp [applyDobRule] at h
  | arr l => simp [applyDobRule] at h

theorem map_ok_decompose (ed : List (String × String)) (t out : Json)
    (h : map_data_to_bitwarden ed t = .ok out) :
    ∃ t1 t2, applyNameRule (dictGet ed "name") t = .ok t1 ∧
      applyDobRule (dictGet ed "dob") t1 = .ok t2 ∧
      applyAddressRule (dictGet ed "address") t2 = .ok out := by
  cases h1 : applyNameRule (dictGet ed "name") t with
  | error e => simp [map_data_to_bitwarden, h1] at h
  | ok t1 =>
    cases h2 : applyDobRule (dictGet ed "dob") t1 with
    | error e => simp [map_data_to_bitwarden, h1, h2] at h
    | ok t2 =>
      refine ⟨t1, t2, rfl, h2, ?_⟩
      simpa [map_data_to_bitwarden, h1, h2] using h

/-- What a successful run of the DOB loop does to the `fields` list: either no
entry is named `"DOB"` and the list comes back unchanged, or the list splits
around the first `"DOB"` entry, only that entry's `"value"` is set, and
everything before and after is untouched. -/
theorem updateDOB_ok (v : String) (fl fl' : List Json) (h : updateDOB v fl = .ok fl') :
    ((∀ f ∈ fl, isDOBField f = false) ∧ fl' = fl) ∨
    (∃ pre ffs post, fl = pre ++ Json.obj ffs :: post ∧
      (∀ f ∈ pre, isDOBField f = false) ∧
      dictGet ffs "name" = some (Json.str "DOB") ∧
      fl' = pre ++ Json.obj (dictSet ffs "value" (Json.str v)) :: post) := by
  induction fl generalizing fl' with
  | nil =>
    left
    simp [updateDOB] at h
    simp [h]
  | cons f rest ih =>
    cases f with
    | obj ffs =>
      cases hn : dictGet ffs "name" with
      | some nv =>
        by_cases hb : jsonEqStr nv "DOB" = true
        · have hnv := jsonEqStr_eq_true nv "DOB" hb
          subst hnv
          simp [updateDOB, hn, hb] at h
          right
          refine ⟨[], ffs, rest, rfl, ?_, hn, ?_⟩
          · intro g hg
            simp at hg
          · simp [← h]
        · cases hrec : updateDOB v rest with
          | ok rest' =>
            simp [updateDOB, hn, hb, hrec] at h
            have hfself : isDOBField (Json.obj ffs) = false := by
              simp [isDOBField, hn, hb]
            rcases ih rest' hrec with ⟨hall, heq⟩ | ⟨pre, ffs', post, hfl, hpre, hname, hfl'⟩
            · left
              constructor
              · intro g hg
                rcases List.mem_cons.mp hg with hg | hg
                · rw [hg]
                  exact hfself
                · exact hall g hg
              · rw [← h, heq]
            · right
              refine ⟨Json.obj ffs :: pre, ffs', post, ?_, ?_, hname, ?_⟩
              · rw [hfl]
                rfl
              · intro g hg
                rcases List.mem_cons.mp hg with hg | hg
                · rw [hg]
                  exact hfself
                · exact hpre g hg
              · rw [← h, hfl']
                rfl
          | error e => simp [updateDOB, hn, hb, hrec] at h
      | none => simp [updateDOB, hn] at h
    | null => simp [updateDOB] at h
    | bool b => simp [updateDOB] at h
    | num n => simp [updateDOB] at h
    | str s => simp [updateDOB] at h
    | arr l => simp [updateDOB] at h

/-! ### Frame lemmas: what each rule leaves untouched -/

theorem applyNameRule_jget_ne (v? : Option String) (t t' : Json)
    (h : applyNameRule v? t = .ok t') (k : String)
    (hk1 : k ≠ "identity") (hk2 : k ≠ "name") : jget t' k = jget t k := by
  cases v? with
  | none => rw [applyNameRule_none_ok t t' h]
  | some nm =>
    obtain ⟨fs, ifs, ht, hi, ht'⟩ := applyNameRule_some_ok nm t t' h
    rw [ht, ht', jget, jget, dictGet_dictSet_ne _ _ _ _ hk2, dictGet_dictSet_ne _ _ _ _ hk1]

theorem applyNameRule_some_identity (nm : String) (t t' : Json)
    (h : applyNameRule (some nm) t = .ok t') :
    ∃ ifs, jget t "identity" = some (.obj ifs) ∧
      jget t' "identity" = some (.obj (dictSet
        (dictSet ifs "firstName" (.str (String.mk ((splitOnChar ' ' nm.data).headD []))))
        "lastName" (.str (String.mk ((splitOnChar ' ' nm.data).getLastD []))))) := by
  obtain ⟨fs, ifs, ht, hi, ht'⟩ := applyNameRule_some_ok nm t t' h
  refine ⟨ifs, by rw [ht, jget, hi], ?_⟩
  rw [ht', jget, dictGet_dictSet_ne _ _ _ _ (by decide), dictGet_dictSet_self]

theorem applyNameRule_some_name (nm : String) (t t' : Json)
    (h : applyNameRule (some nm) t = .ok t') :
    jget t' "name" = some (.str (nm ++ " ID")) := by
  obtain ⟨fs, ifs, ht, hi, ht'⟩ := applyNameRule_some_ok nm t t' h
  rw [ht', jget, dictGet_dictSet_self]

theorem applyDobRule_jget_ne (v? : Option String) (t t' : Json)
    (h : applyDobRule v? t = .ok t') (k : String)
    (hk : k ≠ "fields") : jget t' k = jget t k := by
  cases v? with
  | none => rw [applyDobRule_none_ok t t' h]
  | some v =>
    obtain ⟨fs, fl, fl', ht, hi, hu, ht'⟩ := applyDobRule_some_ok v t t' h
    rw [ht, ht', jget, jget, dictGet_dictSet_ne _ _ _ _ hk]

theorem applyAddressRule_jget_ne (v? : Option String) (t t' : Json)
    (h : applyAddressRule v? t = .ok t') (k : String)
    (hk : k ≠ "identity") : jget t' k = jget t k := by
  cases v? with
  | none => rw [applyAddressRule_none_ok t t' h]
  | some a =>
    obtain ⟨fs, ifs, ht, hi, ht'⟩ := applyAddressRule_some_ok a t t' h
    rw [ht, ht', jget, jget, dictGet_dictSet_ne _ _ _ _ hk]

theorem applyAddressRule_identity (v? : Option String) (t t' : Json)
    (h : applyAddressRule v? t = .ok t') (k : String) (hk : k ≠ "address1") :
    jget2 t' "identity" k = jget2 t "identity" k := by
  cases v? with
  | none => rw [applyAddressRule_none_ok t t' h]
  | some a =>
    obtain ⟨fs, ifs, ht, hi, ht'⟩ := applyAddressRule_some_ok a t t' h
    rw [ht, ht']
    simp only [jget2, jget, dictGet_dictSet_self, hi]
    rw [dictGet_dictSet_ne _ _ _ _ hk]

theorem applyAddressRule_some_sets (a : String) (t t' : Json)
    (h : applyAddressRule (some a) t = .ok t') :
    jget2 t' "identity" "address1" = some (.str a) := by
  obtain ⟨fs, ifs, ht, hi, ht'⟩ := applyAddressRule_some_ok a t t' h
  rw [ht']
  simp only [jget2, jget, dictGet_dictSet_self]

theorem applyDobRule_jget2_identity (v? : Option String) (t t' : Json)
    (h : applyDobRule v? t = .ok t') (k : String) :
    jget2 t' "identity" k = jget2 t "identity" k := by
  rw [jget2, jget2, applyDobRule_jget_ne v? t t' h "identity" (by decide)]

theorem jget2_eq (t : Json) (k1 k2 : String) (u : Json) (h : jget t k1 = some u) :
    jget2 t k1 k2 = jget u k2 := by
  simp [jget2, h]

theorem applyNameRule_identity_ne (v? : Option String) (t t' : Json)
    (h : applyNameRule v? t = .ok t') (k : String)
    (hk1 : k ≠ "firstName") (hk2 : k ≠ "lastName") :
    jget2 t' "identity" k = jget2 t "identity" k := by
  cases v? with
  | none => rw [applyNameRule_none_ok t t' h]
  | some nm =>
    obtain ⟨ifs, hti, ht'i⟩ := applyNameRule_some_identity nm t t' h
    rw [jget2_eq t' "identity" k _ ht'i, jget2_eq t "identity" k _ hti]
    simp only [jget]
    rw [dictGet_dictSet_ne _ _ _ _ hk2, dictGet_dictSet_ne _ _ _ _ hk1]

theorem applyNameRule_sets_firstName (nm : String) (t t' : Json)
    (h : applyNameRule (some nm) t = .ok t') :
    jget2 t' "identity" "firstName" =
      some (.str (String.mk ((splitOnChar ' ' nm.data).headD []))) := by
  obtain ⟨ifs, hti, ht'i⟩ := applyNameRule_some_identity nm t t' h
  rw [jget2_eq t' "identity" "firstName" _ ht'i]
  simp only [jget]
  rw [dictGet_dictSet_ne _ _ _ _ (by decide), dictGet_dictSet_self]

theorem applyNameRule_sets_lastName (nm : String) (t t' : Json)
    (h : applyNameRule (some nm) t = .ok t') :
    jget2 t' "identity" "lastName" =
      some (.str (String.mk ((splitOnChar ' ' nm.data).getLastD []))) := by
  obtain ⟨ifs, hti, ht'i⟩ := applyNameRule_some_identity nm t t' h
  rw [jget2_eq t' "identity" "lastName" _ ht'i]
  simp only [jget]
  rw [dictGet_dictSet_self]

/-! ### Mapper-level slot lemmas -/

theorem map_sets_firstName (ed : List (String × String)) (t out : Json) (nm : String)
    (hn : dictGet ed "name" = some nm) (h : map_data_to_bitwarden ed t = .ok out) :
    jget2 out "identity" "firstName" =
      some (.str (String.mk ((splitOnChar ' ' nm.data).headD []))) := by
  obtain ⟨t1, t2, h1, h2, h3⟩ := map_ok_decompose ed t out h
  rw [hn] at h1
  rw [applyAddressRule_identity _ t2 out h3 "firstName" (by decide),
    applyDobRule_jget2_identity _ t1 t2 h2 "firstName"]
  exact applyNameRule_sets_firstName nm t t1 h1

theorem map_sets_lastName (ed : List (String × String)) (t out : Json) (nm : String)
    (hn : dictGet ed "name" = some nm) (h : map_data_to_bitwarden ed t = .ok out) :
    jget2 out "identity" "lastName" =
      some (.str (String.mk ((splitOnChar ' ' nm.data).getLastD []))) := by
  obtain ⟨t1, t2, h1, h2, h3⟩ := map_ok_decompose ed t out h
  rw [hn] at h1
  rw [applyAddressRule_identity _ t2 out h3 "lastName" (by decide),
    applyDobRule_jget2_identity _ t1 t2 h2 "lastName"]
  exact applyNameRule_sets_lastName nm t t1 h1

theorem map_sets_topName (ed : List (String × String)) (t out : Json) (nm : String)
    (hn : dictGet ed "name" = some nm) (h : map_data_to_bitwarden ed t = .ok out) :
    jget out "name" = some (.str (nm ++ " ID")) := by
  obtain ⟨t1, t2, h1, h2, h3⟩ := map_ok_decompose ed t out h
  rw [hn] at h1
  rw [applyAddressRule_jget_ne _ t2 out h3 "name" (by decide),
    applyDobRule_jget_ne _ t1 t2 h2 "name" (by decide)]
  exact applyNameRule_some_name nm t t1 h1

/-! ### Claims about the template mapper -/

/-- C2: for every extraction result containing a "name" field, the mapper
splits its value on the space character, stores the first token in
`identity.firstName` and the last token in `identity.lastName` (a
single-token value lands in both slots), and sets the top-level `name` to
the value followed by `" ID"`. -/
theorem C2_name_rule (ed : List (String × String)) (t out : Json) (nm : String)
    (hn : dictGet ed "name" = some nm) (h : map_data_to_bitwarden ed t = .ok out) :
    jget2 out "identity" "firstName" =
        some (.str (String.mk ((splitOnChar ' ' nm.data).headD []))) ∧
      jget2 out "identity" "lastName" =
        some (.str (String.mk ((splitOnChar ' ' nm.data).getLastD []))) ∧
      ((splitOnChar ' ' nm.data).length = 1 →
        jget2 out "identity" "firstName" = jget2 out "identity" "lastName") ∧
      jget out "name" = some (.str (nm ++ " ID")) := by
  refine ⟨map_sets_firstName ed t out nm hn h, map_sets_lastName ed t out nm hn h, ?_,
    map_sets_topName ed t out nm hn h⟩
  intro hlen
  rw [map_sets_firstName ed t out nm hn h, map_sets_lastName ed t out nm hn h]
  cases hsp : splitOnChar ' ' nm.data with
  | nil => exact absurd hsp (splitOnChar_ne_nil _ _)
  | cons a l =>
    rw [hsp] at hlen
    simp only [List.length_cons, Nat.add_left_eq_self, List.length_eq_zero] at hlen
    subst hlen
    simp

theorem C2_name_rule_witness :
    dictGet [("name", "Madonna")] "name" = some "Madonna" ∧
      map_data_to_bitwarden [("name", "Madonna")]
        (Json.obj [("identity", Json.obj [("firstName", Json.str ""), ("lastName", Json.str "")])]) =
        .ok (Json.obj [("identity", Json.obj [("firstName", Json.str "Madonna"), ("lastName", Json.str "Madonna")]), ("name", Json.str "Madonna ID")]) ∧
      (jget2 (Json.obj [("identity", Json.obj [("firstName", Json.str "Madonna"), ("lastName", Json.str "Madonna")]), ("name", Json.str "Madonna ID")]) "identity" "firstName" =
          some (.str (String.mk ((splitOnChar ' ' "Madonna".data).headD []))) ∧
        jget2 (Json.obj [("identity", Json.obj [("firstName", Json.str "Madonna"), ("lastName", Json.str "Madonna")]), ("name", Json.str "Madonna ID")]) "identity" "lastName" =
          some (.str (String.mk ((splitOnChar ' ' "Madonna".data).getLastD []))) ∧
        ((splitOnChar ' ' "Madonna".data).length = 1 →
          jget2 (Json.obj [("identity", Json.obj [("firstName", Json.str "Madonna"), ("lastName", Json.str "Madonna")]), ("name", Json.str "Madonna ID")]) "identity" "firstName" =
            jget2 (Json.obj [("identity", Json.obj [("firstName", Json.str "Madonna"), ("lastName", Json.str "Madonna")]), ("name", Json.str "Madonna ID")]) "identity" "lastName") ∧
        jget (Json.obj [("identity", Json.obj [("firstName", Json.str "Madonna"), ("lastName", Json.str "Madonna")]), ("name", Json.str "Madonna ID")]) "name" =
          some (.str ("Madonna" ++ " ID"))) :=
  ⟨rfl, rfl, C2_name_rule [("name", "Madonna")]
    (Json.obj [("identity", Json.obj [("firstName", Json.str ""), ("lastName", Json.str "")])])
    (Json.obj [("identity", Json.obj [("firstName", Json.str "Madonna"), ("lastName", Json.str "Madonna")]), ("name", Json.str "Madonna ID")])
    "Madonna" rfl rfl⟩

/-- C3: for every extraction result containing a "dob" field, the mapper
updates the value of only the first `fields` entry named `"DOB"`; entries
before it are not named `"DOB"`, entries after it are untouched, and when no
entry is named `"DOB"` the `fields` sequence comes back entirely unchanged
with no new entry created. -/
theorem C3_dob_rule (ed : List (String × String)) (t out : Json) (v : String)
    (hv : dictGet ed "dob" = some v) (h : map_data_to_bitwarden ed t = .ok out) :
    ∃ fl fl', jget t "fields" = some (.arr fl) ∧ jget out "fields" = some (.arr fl') ∧
      (((∀ f ∈ fl, isDOBField f = false) ∧ fl' = fl) ∨
        (∃ pre ffs post, fl = pre ++ Json.obj ffs :: post ∧
          (∀ f ∈ pre, isDOBField f = false) ∧
          dictGet ffs "name" = some (Json.str "DOB") ∧
          fl' = pre ++ Json.obj (dictSet ffs "value" (Json.str v)) :: post)) := by
  obtain ⟨t1, t2, h1, h2, h3⟩ := map_ok_decompose ed t out h
  rw [hv] at h2
  obtain ⟨fs1, fl, fl', ht1, hflds, hupd, ht2⟩ := applyDobRule_some_ok v t1 t2 h2
  refine ⟨fl, fl', ?_, ?_, updateDOB_ok v fl fl' hupd⟩
  · rw [← applyNameRule_jget_ne _ t t1 h1 "fields" (by decide) (by decide), ht1]
    simp only [jget]
    exact hflds
  · rw [applyAddressRule_jget_ne _ t2 out h3 "fields" (by decide), ht2]
    simp only [jget]
    exact dictGet_dictSet_self fs1 "fields" (.arr fl')

theorem C3_dob_rule_witness :
    dictGet [("dob", "01/01/1990")] "dob" = some "01/01/1990" ∧
      map_data_to_bitwarden [("dob", "01/01/1990")]
        (Json.obj [("fields", Json.arr [Json.obj [("name", Json.str "DOB"), ("value", Json.str "")]])]) =
        .ok (Json.obj [("fields", Json.arr [Json.obj [("name", Json.str "DOB"), ("value", Json.str "01/01/1990")]])]) ∧
      (∃ fl fl',
        jget (Json.obj [("fields", Json.arr [Json.obj [("name", Json.str "DOB"), ("value", Json.str "")]])]) "fields" = some (.arr fl) ∧
        jget (Json.obj [("fields", Json.arr [Json.obj [("name", Json.str "DOB"), ("value", Json.str "01/01/1990")]])]) "fields" = some (.arr fl') ∧
        (((∀ f ∈ fl, isDOBField f = false) ∧ fl' = fl) ∨
          (∃ pre ffs post, fl = pre ++ Json.obj ffs :: post ∧
            (∀ f ∈ pre, isDOBField f = false) ∧
            dictGet ffs "name" = some (Json.str "DOB") ∧
            fl' = pre ++ Json.obj (dictSet ffs "value" (Json.str "01/01/1990")) :: post))) :=
  ⟨rfl, rfl, C3_dob_rule [("dob", "01/01/1990")]
    (Json.obj [("fields", Json.arr [Json.obj [("name", Json.str "DOB"), ("value", Json.str "")]])])
    (Json.obj [("fields", Json.arr [Json.obj [("name", Json.str "DOB"), ("value", Json.str "01/01/1990")]])])
    "01/01/1990" rfl rfl⟩

/-- C9: for every extraction result containing none of the keys "name",
"dob" and "address" (the empty one included), the mapper succeeds on every
template and returns it completely unchanged, so `import_bitwarden.json` is
still written and is exactly the loaded template re-serialized. -/
theorem C9_no_mapped_fields (ed : List (String × String)) (t : Json)
    (h1 : dictGet ed "name" = none) (h2 : dictGet ed "dob" = none)
    (h3 : dictGet ed "address" = none) :
    map_data_to_bitwarden ed t = .ok t := by
  simp [map_data_to_bitwarden, h1, h2, h3, applyNameRule, applyDobRule, applyAddressRule]

theorem C9_no_mapped_fields_witness :
    dictGet ([("someOtherField", "x")] : List (String × String)) "name" = none ∧
      dictGet ([("someOtherField", "x")] : List (String × String)) "dob" = none ∧
      dictGet ([("someOtherField", "x")] : List (String × String)) "address" = none ∧
      map_data_to_bitwarden [("someOtherField", "x")] (Json.obj [("identity", Json.obj [])]) =
        .ok (Json.obj [("identity", Json.obj [])]) :=
  ⟨rfl, rfl, rfl,
    C9_no_mapped_fields [("someOtherField", "x")] (Json.obj [("identity", Json.obj [])]) rfl rfl rfl⟩

/-- C10: the name split uses the single space character and keeps empty
tokens: an empty "name" value puts the empty string in both
`identity.firstName` and `identity.lastName` and makes the top-level `name`
`" ID"`; a value with a leading space puts the empty string in
`identity.firstName`; a value with a trailing space puts the empty string in
`identity.lastName`. -/
theorem C10_space_split_edge_cases :
    (∀ (ed : List (String × String)) (t out : Json),
      dictGet ed "name" = some "" → map_data_to_bitwarden ed t = .ok out →
        jget2 out "identity" "firstName" = some (.str "") ∧
          jget2 out "identity" "lastName" = some (.str "") ∧
          jget out "name" = some (.str " ID")) ∧
    (∀ (ed : List (String × String)) (t out : Json) (s : String),
      dictGet ed "name" = some (String.mk (' ' :: s.data)) →
      map_data_to_bitwarden ed t = .ok out →
        jget2 out "identity" "firstName" = some (.str "")) ∧
    (∀ (ed : List (String × String)) (t out : Json) (s : String),
      dictGet ed "name" = some (String.mk (s.data ++ [' '])) →
      map_data_to_bitwarden ed t = .ok out →
        jget2 out "identity" "lastName" = some (.str "")) := by
  refine ⟨?_, ?_, ?_⟩
  · intro ed t out hn h
    exact ⟨map_sets_firstName ed t out "" hn h, map_sets_lastName ed t out "" hn h,
      map_sets_topName ed t out "" hn h⟩
  · intro ed t out s hn h
    rw [map_sets_firstName ed t out (String.mk (' ' :: s.data)) hn h]
    have hd : (String.mk (' ' :: s.data)).data = ' ' :: s.data := rfl
    rw [hd, splitOnChar_cons_sep]
    rfl
  · intro ed t out s hn h
    rw [map_sets_lastName ed t out (String.mk (s.data ++ [' '])) hn h]
    have hd : (String.mk (s.data ++ [' '])).data = s.data ++ [' '] := rfl
    rw [hd, splitOnChar_concat_sep, List.getLastD_eq_getLast?, List.getLast?_concat]
    rfl

theorem C10_space_split_edge_cases_witness :
    (dictGet [("name", "")] "name" = some "" ∧
      map_data_to_bitwarden [("name", "")] (Json.obj [("identity", Json.obj [])]) =
        .ok (Json.obj [("identity", Json.obj [("firstName", Json.str ""), ("lastName", Json.str "")]), ("name", Json.str " ID")]) ∧
      (jget2 (Json.obj [("identity", Json.obj [("firstName", Json.str ""), ("lastName", Json.str "")]), ("name", Json.str " ID")]) "identity" "firstName" = some (.str "") ∧
        jget2 (Json.obj [("identity", Json.obj [("firstName", Json.str ""), ("lastName", Json.str "")]), ("name", Json.str " ID")]) "identity" "lastName" = some (.str "") ∧
        jget (Json.obj [("identity", Json.obj [("firstName", Json.str ""), ("lastName", Json.str "")]), ("name", Json.str " ID")]) "name" = some (.str " ID"))) ∧
    (dictGet [("name", " John")] "name" = some (String.mk (' ' :: "John".data)) ∧
      map_data_to_bitwarden [("name", " John")] (Json.obj [("identity", Json.obj [])]) =
        .ok (Json.obj [("identity", Json.obj [("firstName", Json.str ""), ("lastName", Json.str "John")]), ("name", Json.str " John ID")]) ∧
      jget2 (Json.obj [("identity", Json.obj [("firstName", Json.str ""), ("lastName", Json.str "John")]), ("name", Json.str " John ID")]) "identity" "firstName" = some (.str "")) ∧
    (dictGet [("name", "John ")] "name" = some (String.mk ("John".data ++ [' '])) ∧
      map_data_to_bitwarden [("name", "John ")] (Json.obj [("identity", Json.obj [])]) =
        .ok (Json.obj [("identity", Json.obj [("firstName", Json.str "John"), ("lastName", Json.str "")]), ("name", Json.str "John  ID")]) ∧
      jget2 (Json.obj [("identity", Json.obj [("firstName", Json.str "John"), ("lastName", Json.str "")]), ("name", Json.str "John  ID")]) "identity" "lastName" = some (.str "")) :=
  ⟨⟨rfl, rfl,
    C10_space_split_edge_cases.1 [("name", "")] (Json.obj [("identity", Json.obj [])])
      (Json.obj [("identity", Json.obj [("firstName", Json.str ""), ("lastName", Json.str "")]), ("name", Json.str " ID")]) rfl rfl⟩,
   ⟨rfl, rfl,
    C10_space_split_edge_cases.2.1 [("name", " John")] (Json.obj [("identity", Json.obj [])])
      (Json.obj [("identity", Json.obj [("firstName", Json.str ""), ("lastName", Json.str "John")]), ("name", Json.str " John ID")]) "John" rfl rfl⟩,
   ⟨rfl, rfl,
    C10_space_split_edge_cases.2.2 [("name", "John ")] (Json.obj [("identity", Json.obj [])])
      (Json.obj [("identity", Json.obj [("firstName", Json.str "John"), ("lastName", Json.str "")]), ("name", Json.str "John  ID")]) "John" rfl rfl⟩⟩

/-! ### Key preservation (no slot is ever deleted) -/

theorem applyNameRule_preserves_keys (v? : Option String) (t t' : Json)
    (h : applyNameRule v? t = .ok t') (k : String) (hk : (jget t k).isSome) :
    (jget t' k).isSome := by
  cases v? with
  | none => rw [applyNameRule_none_ok t t' h]; exact hk
  | some nm =>
    obtain ⟨fs, ifs, ht, hi, ht'⟩ := applyNameRule_some_ok nm t t' h
    subst ht
    subst ht'
    simp only [jget] at hk ⊢
    exact dictGet_isSome_dictSet _ "name" k _ (dictGet_isSome_dictSet fs "identity" k _ hk)

theorem applyDobRule_preserves_keys (v? : Option String) (t t' : Json)
    (h : applyDobRule v? t = .ok t') (k : String) (hk : (jget t k).isSome) :
    (jget t' k).isSome := by
  cases v? with
  | none => rw [applyDobRule_none_ok t t' h]; exact hk
  | some v =>
    obtain ⟨fs, fl, fl', ht, hi, hu, ht'⟩ := applyDobRule_some_ok v t t' h
    subst ht
    subst ht'
    simp only [jget] at hk ⊢
    exact dictGet_isSome_dictSet fs "fields" k _ hk

theorem applyAddressRule_preserves_keys (v? : Option String) (t t' : Json)
    (h : applyAddressRule v? t = .ok t') (k : String) (hk : (jget t k).isSome) :
    (jget t' k).isSome := by
  cases v? with
  | none => rw [applyAddressRule_none_ok t t' h]; exact hk
  | some a =>
    obtain ⟨fs, ifs, ht, hi, ht'⟩ := applyAddressRule_some_ok a t t' h
    subst ht
    subst ht'
    simp only [jget] at hk ⊢
    exact dictGet_isSome_dictSet fs "identity" k _ hk

/-- What a successful mapper run with a "dob" value does to the `fields`
slot, relating the input and output templates. -/
theorem map_dob_fields (ed : List (String × String)) (t out : Json) (v : String)
    (hv : dictGet ed "dob" = some v) (h : map_data_to_bitwarden ed t = .ok out) :
    ∃ fl fl', jget t "fields" = some (.arr fl) ∧ jget out "fields" = some (.arr fl') ∧
      (((∀ f ∈ fl, isDOBField f = false) ∧ fl' = fl) ∨
        (∃ pre ffs post, fl = pre ++ Json.obj ffs :: post ∧
          (∀ f ∈ pre, isDOBField f = false) ∧
          dictGet ffs "name" = some (Json.str "DOB") ∧
          fl' = pre ++ Json.obj (dictSet ffs "value" (Json.str v)) :: post)) := by
  obtain ⟨t1, t2, h1, h2, h3⟩ := map_ok_decompose ed t out h
  rw [hv] at h2
  obtain ⟨fs1, fl, fl', ht1, hflds, hupd, ht2⟩ := applyDobRule_some_ok v t1 t2 h2
  refine ⟨fl, fl', ?_, ?_, updateDOB_ok v fl fl' hupd⟩
  · rw [← applyNameRule_jget_ne _ t t1 h1 "fields" (by decide) (by decide), ht1]
    simp only [jget]
    exact hflds
  · rw [applyAddressRule_jget_ne _ t2 out h3 "fields" (by decide), ht2]
    simp only [jget]
    exact dictGet_dictSet_self fs1 "fields" (.arr fl')

/-- When no "dob" key is extracted, the `fields` slot is untouched. -/
theorem map_no_dob_fields (ed : List (String × String)) (t out : Json)
    (hv : dictGet ed "dob" = none) (h : map_data_to_bitwarden ed t = .ok out) :
    jget out "fields" = jget t "fields" := by
  obtain ⟨t1, t2, h1, h2, h3⟩ := map_ok_decompose ed t out h
  rw [hv] at h2
  rw [applyAddressRule_jget_ne _ t2 out h3 "fields" (by decide),
    applyDobRule_none_ok t1 t2 h2,
    applyNameRule_jget_ne _ t t1 h1 "fields" (by decide) (by decide)]

/-- C4: the mapper leaves every template slot other than
`identity.firstName`, `identity.lastName`, the top-level `name`, the first
`"DOB"` entry's `value` and `identity.address1` exactly as loaded: top-level
slots outside `identity` / `name` / `fields` are unchanged, no key is ever
deleted, `identity` sub-slots other than the three written ones are
unchanged, the `fields` sequence keeps its length and order with at most the
one in-place `value` update, and extraction fields outside
name / dob / address never appear in or alter the output. -/
theorem C4_frame_conditions (ed : List (String × String)) (t out : Json)
    (h : map_data_to_bitwarden ed t = .ok out) :
    (∀ k, k ≠ "identity" → k ≠ "name" → k ≠ "fields" → jget out k = jget t k) ∧
    (∀ k, (jget t k).isSome → (jget out k).isSome) ∧
    (∀ k, k ≠ "firstName" → k ≠ "lastName" → k ≠ "address1" →
      jget2 out "identity" k = jget2 t "identity" k) ∧
    (∀ fl, jget t "fields" = some (.arr fl) →
      ∃ fl', jget out "fields" = some (.arr fl') ∧ fl'.length = fl.length ∧
        (fl' = fl ∨ ∃ pre ffs post v, fl = pre ++ Json.obj ffs :: post ∧
          fl' = pre ++ Json.obj (dictSet ffs "value" (Json.str v)) :: post)) ∧
    (∀ ed', dictGet ed' "name" = dictGet ed "name" →
      dictGet ed' "dob" = dictGet ed "dob" →
      dictGet ed' "address" = dictGet ed "address" →
      map_data_to_bitwarden ed' t = .ok out) := by
  obtain ⟨t1, t2, h1, h2, h3⟩ := map_ok_decompose ed t out h
  refine ⟨?_, ?_, ?_, ?_, ?_⟩
  · intro k hk1 hk2 hk3
    rw [applyAddressRule_jget_ne _ t2 out h3 k hk1,
      applyDobRule_jget_ne _ t1 t2 h2 k hk3,
      applyNameRule_jget_ne _ t t1 h1 k hk1 hk2]
  · intro k hk
    exact applyAddressRule_preserves_keys _ t2 out h3 k
      (applyDobRule_preserves_keys _ t1 t2 h2 k
        (applyNameRule_preserves_keys _ t t1 h1 k hk))
  · intro k hk1 hk2 hk3
    rw [applyAddressRule_identity _ t2 out h3 k hk3,
      applyDobRule_jget2_identity _ t1 t2 h2 k,
      applyNameRule_identity_ne _ t t1 h1 k hk1 hk2]
  · intro fl hfl
    cases hdob : dictGet ed "dob" with
    | none =>
      refine ⟨fl, ?_, rfl, Or.inl rfl⟩
      rw [map_no_dob_fields ed t out hdob h, hfl]
    | some v =>
      obtain ⟨fl0, fl', ht_flds, hout_flds, hrel⟩ := map_dob_fields ed t out v hdob h
      have hfl0 : fl0 = fl := by
        rw [hfl] at ht_flds
        simpa using ht_flds.symm
      subst hfl0
      rcases hrel with ⟨_, heq⟩ | ⟨pre, ffs, post, hfl_eq, _, _, hfl'_eq⟩
      · exact ⟨fl', hout_flds, by rw [heq], Or.inl heq⟩
      · refine ⟨fl', hout_flds, ?_, Or.inr ⟨pre, ffs, post, v, hfl_eq, hfl'_eq⟩⟩
        rw [hfl_eq, hfl'_eq]
        simp
  · intro ed' he1 he2 he3
    simp only [map_data_to_bitwarden, he1, he2, he3]
    exact h

theorem C4_frame_conditions_witness :
    map_data_to_bitwarden
        [("name", "John Doe"), ("dob", "01/01/1990"), ("address", "123 Main St, Anytown, USA")]
        (Json.obj [("identity", Json.obj [("x", Json.str "keep")]),
          ("fields", Json.arr [Json.obj [("name", Json.str "DOB"), ("value", Json.str "")]]),
          ("extra", Json.str "kept")]) =
      .ok (Json.obj [("identity", Json.obj [("x", Json.str "keep"), ("firstName", Json.str "John"),
            ("lastName", Json.str "Doe"), ("address1", Json.str "123 Main St, Anytown, USA")]),
          ("fields", Json.arr [Json.obj [("name", Json.str "DOB"), ("value", Json.str "01/01/1990")]]),
          ("extra", Json.str "kept"), ("name", Json.str "John Doe ID")]) ∧
    jget (Json.obj [("identity", Json.obj [("x", Json.str "keep"), ("firstName", Json.str "John"),
            ("lastName", Json.str "Doe"), ("address1", Json.str "123 Main St, Anytown, USA")]),
          ("fields", Json.arr [Json.obj [("name", Json.str "DOB"), ("value", Json.str "01/01/1990")]]),
          ("extra", Json.str "kept"), ("name", Json.str "John Doe ID")]) "extra" =
      jget (Json.obj [("identity", Json.obj [("x", Json.str "keep")]),
          ("fields", Json.arr [Json.obj [("name", Json.str "DOB"), ("value", Json.str "")]]),
          ("extra", Json.str "kept")]) "extra" ∧
    jget2 (Json.obj [("identity", Json.obj [("x", Json.str "keep"), ("firstName", Json.str "John"),
            ("lastName", Json.str "Doe"), ("address1", Json.str "123 Main St, Anytown, USA")]),
          ("fields", Json.arr [Json.obj [("name", Json.str "DOB"), ("value", Json.str "01/01/1990")]]),
          ("extra", Json.str "kept"), ("name", Json.str "John Doe ID")]) "identity" "x" =
      jget2 (Json.obj [("identity", Json.obj [("x", Json.str "keep")]),
          ("fields", Json.arr [Json.obj [("name", Json.str "DOB"), ("value", Json.str "")]]),
          ("extra", Json.str "kept")]) "identity" "x" := by
  have h := C4_frame_conditions
    [("name", "John Doe"), ("dob", "01/01/1990"), ("address", "123 Main St, Anytown, USA")]
    (Json.obj [("identity", Json.obj [("x", Json.str "keep")]),
      ("fields", Json.arr [Json.obj [("name", Json.str "DOB"), ("value", Json.str "")]]),
      ("extra", Json.str "kept")])
    (Json.obj [("identity", Json.obj [("x", Json.str "keep"), ("firstName", Json.str "John"),
        ("lastName", Json.str "Doe"), ("address1", Json.str "123 Main St, Anytown, USA")]),
      ("fields", Json.arr [Json.obj [("name", Json.str "DOB"), ("value", Json.str "01/01/1990")]]),
      ("extra", Json.str "kept"), ("name", Json.str "John Doe ID")])
    rfl
  exact ⟨rfl, h.1 "extra" (by decide) (by decide) (by decide),
    h.2.2.1 "x" (by decide) (by decide) (by decide)⟩

/-! ### Serialization (for byte-identical output claims) -/

/-- Four-space-per-level indentation. -/
def indentStr (n : Nat) : String := String.mk (List.replicate n ' ')

/-- Modelled from the spec: the artifacts are "indented JSON" written by the
standard library's `json.dump(..., indent=4)`, which is not part of `src/`.
Escaping of one character inside a JSON string literal. -/
def escapeJsonChar (c : Char) : String :=
  if c = '"' then "\\\""
  else if c = '\\' then "\\\\"
  else if c = '\n' then "\\n"
  else if c = '\t' then "\\t"
  else if c = '\r' then "\\r"
  else String.singleton c

/-- Escaping of a whole JSON string literal body. -/
def jsonEscape (s : String) : String := String.join (s.data.map escapeJsonChar)

mutual

/-- Modelled from the spec: `json.dump(value, f, indent=4)` (standard library,
not in `src/`) — a deterministic indented rendering of a JSON value. -/
def dumpJson (ind : Nat) : Json → String
  | .null => "null"
  | .bool b => if b then "true" else "false"
  | .num n => toString n
  | .str s => "\"" ++ jsonEscape s ++ "\""
  | .arr [] => "[]"
  | .arr (x :: xs) =>
    "[\n" ++ dumpArrItems (ind + 4) x xs ++ "\n" ++ indentStr ind ++ "]"
  | .obj [] => "\x7b\x7d"
  | .obj (p :: ps) =>
    "\x7b\n" ++ dumpObjItems (ind + 4) p ps ++ "\n" ++ indentStr ind ++ "\x7d"
termination_by j => sizeOf j

/-- Comma-separated indented rendering of array items. -/
def dumpArrItems (ind : Nat) : Json → List Json → String
  | x, [] => indentStr ind ++ dumpJson ind x
  | x, y :: ys => indentStr ind ++ dumpJson ind x ++ ",\n" ++ dumpArrItems ind y ys
termination_by x xs => sizeOf x + sizeOf xs

/-- Comma-separated indented rendering of object members. -/
def dumpObjItems (ind : Nat) : (String × Json) → List (String × Json) → String
  | (k, v), [] => indentStr ind ++ "\"" ++ jsonEscape k ++ "\": " ++ dumpJson ind v
  | (k, v), q :: qs =>
    indentStr ind ++ "\"" ++ jsonEscape k ++ "\": " ++ dumpJson ind v ++ ",\n" ++
      dumpObjItems ind q qs
termination_by p ps => sizeOf p + sizeOf ps

end

/-! ### The orchestrator (`main`, `src/main.py` lines 94-135) -/

/-- The command-line arguments of `main` (`src/main.py` lines 98-105):
`none` models an omitted flag, `mime_type` defaults to `"application/pdf"`. -/
structure Args where
  file_path : Option String
  project_id : Option String
  location : Option String
  processor_id : Option String
  mime_type : String
  credentials : Option String

/-- Python truthiness of an optional string argument: `None` and the empty
string are falsy. -/
def truthyOpt : Option String → Bool
  | none => false
  | some s => !s.isEmpty

/-- The guard of `src/main.py` line 111:
`args.file_path and args.project_id and args.location and args.processor_id`. -/
def paramsComplete (a : Args) : Bool :=
  truthyOpt a.file_path && truthyOpt a.project_id &&
    truthyOpt a.location && truthyOpt a.processor_id

/-- The hardcoded fallback record of `src/main.py` lines 122-126. -/
def mockData : List (String × String) :=
  [("name", "John Doe"), ("dob", "01/01/1990"), ("address", "123 Main St, Anytown, USA")]

/-- The observable effects of one run, in the order they happen. -/
inductive Event where
  | wroteExport : List (String × String) → Event
  | invokedMapper : List (String × String) → Event
  | wroteImport : Json → Event
  | loggedError : PyErr → Event

/-- One invocation of `map_data_to_bitwarden` from `main`: `templateLoad` is
the outcome of reading and parsing `bitwarden_id_template.json` (line 58);
the pair collects the events it produced and the error it raised, if any. -/
def runMapper (ed : List (String × String)) (templateLoad : Except PyErr Json) :
    List Event × Option PyErr :=
  match templateLoad with
  | .error e => ([], some e)
  | .ok t =>
    match map_data_to_bitwarden ed t with
    | .error e => ([], some e)
    | .ok out => ([Event.wroteImport out], none)

/-- The branch of `src/main.py` lines 111-126: when all four service
parameters are truthy the extraction client runs (its outcome, including any
I/O or service error, is `svc`, and its entities are folded by
`processEntities`); otherwise the mock record is substituted. -/
def extResult (a : Args) (svc : Except PyErr (List Entity)) :
    Except PyErr (List (String × String)) :=
  if paramsComplete a = true then svc.map processEntities else .ok mockData

/-- `main` (`src/main.py` lines 110-135): resolve the extraction result,
write the snapshot `export.json`, invoke the mapper, and catch any error
raised anywhere inside the `try` block at the top level, logging it. -/
def runMain (a : Args) (svc : Except PyErr (List Entity))
    (templateLoad : Except PyErr Json) : List Event :=
  match extResult a svc with
  | .error e => [Event.loggedError e]
  | .ok ed =>
    let m := runMapper ed templateLoad
    Event.wroteExport ed :: Event.invokedMapper ed :: m.1 ++
      (match m.2 with
       | some e => [Event.loggedError e]
       | none => [])

/-- The `export.json` contents a run produced, if any. -/
def exportWritten : List Event → Option (List (String × String))
  | [] => none
  | Event.wroteExport d :: _ => some d
  | _ :: rest => exportWritten rest

/-- The `import_bitwarden.json` contents a run produced, if any. -/
def importWritten : List Event → Option Json
  | [] => none
  | Event.wroteImport j :: _ => some j
  | _ :: rest => importWritten rest

/-- The error message a run logged, if any. -/
def errorLogged : List Event → Option PyErr
  | [] => none
  | Event.loggedError e :: _ => some e
  | _ :: rest => errorLogged rest

/-- Modelled from the spec: the repository's template file
`bitwarden_id_template.json` is not under `src/`; section 3 of the spec
describes it as an `identity` object with slots `firstName`, `lastName` and
`address1`, a top-level `name` string, and a `fields` ordered sequence of
`(name, value)` objects with one entry named "DOB". -/
def bitwarden_id_template : Json :=
  Json.obj [("name", Json.str ""),
    ("identity", Json.obj [("firstName", Json.str ""), ("lastName", Json.str ""),
      ("address1", Json.str "")]),
    ("fields", Json.arr [Json.obj [("name", Json.str "DOB"), ("value", Json.str "")]])]

/-! ### Trace lemmas for `runMain` -/

theorem extResult_incomplete (a : Args) (svc : Except PyErr (List Entity))
    (h : paramsComplete a = false) : extResult a svc = .ok mockData := by
  simp [extResult, h]

theorem extResult_complete (a : Args) (svc : Except PyErr (List Entity))
    (h : paramsComplete a = true) : extResult a svc = svc.map processEntities := by
  simp [extResult, h]

theorem runMain_ext_error (a : Args) (svc : Except PyErr (List Entity))
    (tl : Except PyErr Json) (e : PyErr) (h : extResult a svc = .error e) :
    runMain a svc tl = [Event.loggedError e] := by
  simp only [runMain, h]

theorem runMain_tl_error (a : Args) (svc : Except PyErr (List Entity))
    (ed : List (String × String)) (e : PyErr) (h : extResult a svc = .ok ed) :
    runMain a svc (.error e) =
      [Event.wroteExport ed, Event.invokedMapper ed, Event.loggedError e] := by
  simp only [runMain, h, runMapper]
  rfl

theorem runMain_map_error (a : Args) (svc : Except PyErr (List Entity))
    (ed : List (String × String)) (t : Json) (e : PyErr)
    (hext : extResult a svc = .ok ed) (hm : map_data_to_bitwarden ed t = .error e) :
    runMain a svc (.ok t) =
      [Event.wroteExport ed, Event.invokedMapper ed, Event.loggedError e] := by
  simp only [runMain, hext, runMapper, hm]
  rfl

theorem runMain_map_ok (a : Args) (svc : Except PyErr (List Entity))
    (ed : List (String × String)) (t out : Json)
    (hext : extResult a svc = .ok ed) (hm : map_data_to_bitwarden ed t = .ok out) :
    runMain a svc (.ok t) =
      [Event.wroteExport ed, Event.invokedMapper ed, Event.wroteImport out] := by
  simp only [runMain, hext, runMapper, hm]
  rfl

/-! ### Claims about the orchestrator -/

/-- C7: the `export.json` snapshot is written before the mapper is invoked,
and every run has one of exactly three shapes: a failure before the snapshot
write leaves neither late-stage artifact (only a logged error); a failure
during mapping leaves the snapshot present and the mapped file absent; and
otherwise both the snapshot and the mapped template are produced. -/
theorem C7_snapshot_before_mapper (a : Args) (svc : Except PyErr (List Entity))
    (tl : Except PyErr Json) :
    (∃ e, runMain a svc tl = [Event.loggedError e]) ∨
    (∃ ed e, runMain a svc tl =
      [Event.wroteExport ed, Event.invokedMapper ed, Event.loggedError e]) ∨
    (∃ ed out, runMain a svc tl =
      [Event.wroteExport ed, Event.invokedMapper ed, Event.wroteImport out]) := by
  cases hext : extResult a svc with
  | error e => exact Or.inl ⟨e, runMain_ext_error a svc tl e hext⟩
  | ok ed =>
    cases tl with
    | error e => exact Or.inr (Or.inl ⟨ed, e, runMain_tl_error a svc ed e hext⟩)
    | ok t =>
      cases hm : map_data_to_bitwarden ed t with
      | error e => exact Or.inr (Or.inl ⟨ed, e, runMain_map_error a svc ed t e hext hm⟩)
      | ok out => exact Or.inr (Or.inr ⟨ed, out, runMain_map_ok a svc ed t out hext hm⟩)

/-- C6: every error raised by the extraction client or the template mapper is
caught at the orchestrator's top level and reported (a run logs an error
exactly when `import_bitwarden.json` is not produced, and never propagates);
in particular, with complete service parameters and a nonexistent input file
the run ends with the logged I/O error and produces neither artifact. -/
theorem C6_errors_caught (a : Args) (svc : Except PyErr (List Entity))
    (tl : Except PyErr Json) :
    ((∃ e, errorLogged (runMain a svc tl) = some e) ↔
      importWritten (runMain a svc tl) = none) ∧
    (∀ m, paramsComplete a = true → svc = .error (PyErr.ioErr m) →
      errorLogged (runMain a svc tl) = some (PyErr.ioErr m) ∧
      importWritten (runMain a svc tl) = none ∧
      exportWritten (runMain a svc tl) = none) := by
  constructor
  · cases hext : extResult a svc with
    | error e =>
      rw [runMain_ext_error a svc tl e hext]
      simp [errorLogged, importWritten]
    | ok ed =>
      cases tl with
      | error e =>
        rw [runMain_tl_error a svc ed e hext]
        simp [errorLogged, importWritten]
      | ok t =>
        cases hm : map_data_to_bitwarden ed t with
        | error e =>
          rw [runMain_map_error a svc ed t e hext hm]
          simp [errorLogged, importWritten]
        | ok out =>
          rw [runMain_map_ok a svc ed t out hext hm]
          simp [errorLogged, importWritten]
  · intro m hp hsvc
    subst hsvc
    have hext : extResult a (.error (PyErr.ioErr m)) = .error (PyErr.ioErr m) := by
      rw [extResult_complete a _ hp]
      rfl
    rw [runMain_ext_error a _ tl (PyErr.ioErr m) hext]
    exact ⟨rfl, rfl, rfl⟩

theorem C6_errors_caught_witness :
    paramsComplete ⟨some "missing.pdf", some "proj", some "us", some "proc",
        "application/pdf", none⟩ = true ∧
      errorLogged (runMain ⟨some "missing.pdf", some "proj", some "us", some "proc",
          "application/pdf", none⟩
          (.error (PyErr.ioErr "No such file or directory")) (.ok Json.null)) =
        some (PyErr.ioErr "No such file or directory") ∧
      importWritten (runMain ⟨some "missing.pdf", some "proj", some "us", some "proc",
          "application/pdf", none⟩
          (.error (PyErr.ioErr "No such file or directory")) (.ok Json.null)) = none ∧
      exportWritten (runMain ⟨some "missing.pdf", some "proj", some "us", some "proc",
          "application/pdf", none⟩
          (.error (PyErr.ioErr "No such file or directory")) (.ok Json.null)) = none := by
  have h := (C6_errors_caught ⟨some "missing.pdf", some "proj", some "us", some "proc",
    "application/pdf", none⟩
    (.error (PyErr.ioErr "No such file or directory")) (.ok Json.null)).2
    "No such file or directory" rfl rfl
  exact ⟨rfl, h.1, h.2.1, h.2.2⟩

/-- C1: every run invoked without the full set of service parameters
substitutes the fixed fallback record, writes `export.json` containing
exactly the three pairs name="John Doe", dob="01/01/1990",
address="123 Main St, Anytown, USA", and produces a mapped template with
`identity.firstName = "John"`, `identity.lastName = "Doe"`, top-level
`name = "John Doe ID"`, the `fields` entry named "DOB" valued "01/01/1990",
and `identity.address1 = "123 Main St, Anytown, USA"`. -/
theorem C1_fallback_run (a : Args) (svc : Except PyErr (List Entity))
    (hp : paramsComplete a = false) :
    exportWritten (runMain a svc (.ok bitwarden_id_template)) =
      some [("name", "John Doe"), ("dob", "01/01/1990"),
        ("address", "123 Main St, Anytown, USA")] ∧
    ∃ out, importWritten (runMain a svc (.ok bitwarden_id_template)) = some out ∧
      jget2 out "identity" "firstName" = some (.str "John") ∧
      jget2 out "identity" "lastName" = some (.str "Doe") ∧
      jget out "name" = some (.str "John Doe ID") ∧
      (∃ f, firstDOB out = some f ∧ jget f "value" = some (.str "01/01/1990")) ∧
      jget2 out "identity" "address1" = some (.str "123 Main St, Anytown, USA") := by
  have hext := extResult_incomplete a svc hp
  have hm : map_data_to_bitwarden mockData bitwarden_id_template =
      .ok (Json.obj [("name", Json.str "John Doe ID"),
        ("identity", Json.obj [("firstName", Json.str "John"),
          ("lastName", Json.str "Doe"),
          ("address1", Json.str "123 Main St, Anytown, USA")]),
        ("fields", Json.arr [Json.obj [("name", Json.str "DOB"),
          ("value", Json.str "01/01/1990")]])]) := rfl
  rw [runMain_map_ok a svc mockData bitwarden_id_template _ hext hm]
  exact ⟨rfl, Json.obj [("name", Json.str "John Doe ID"),
      ("identity", Json.obj [("firstName", Json.str "John"),
        ("lastName", Json.str "Doe"),
        ("address1", Json.str "123 Main St, Anytown, USA")]),
      ("fields", Json.arr [Json.obj [("name", Json.str "DOB"),
        ("value", Json.str "01/01/1990")]])],
    rfl, rfl, rfl, rfl,
    ⟨Json.obj [("name", Json.str "DOB"), ("value", Json.str "01/01/1990")], rfl, rfl⟩, rfl⟩

theorem C1_fallback_run_witness :
    paramsComplete ⟨none, none, none, none, "application/pdf", none⟩ = false ∧
      (exportWritten (runMain ⟨none, none, none, none, "application/pdf", none⟩
          (.ok []) (.ok bitwarden_id_template)) =
        some [("name", "John Doe"), ("dob", "01/01/1990"),
          ("address", "123 Main St, Anytown, USA")] ∧
      ∃ out, importWritten (runMain ⟨none, none, none, none, "application/pdf", none⟩
          (.ok []) (.ok bitwarden_id_template)) = some out ∧
        jget2 out "identity" "firstName" = some (.str "John") ∧
        jget2 out "identity" "lastName" = some (.str "Doe") ∧
        jget out "name" = some (.str "John Doe ID") ∧
        (∃ f, firstDOB out = some f ∧ jget f "value" = some (.str "01/01/1990")) ∧
        jget2 out "identity" "address1" = some (.str "123 Main St, Anytown, USA")) :=
  ⟨rfl, C1_fallback_run ⟨none, none, none, none, "application/pdf", none⟩ (.ok []) rfl⟩

/-- C8: applying the template mapper twice, each time against a freshly
reloaded copy of the same template file, produces byte-identical
`import_bitwarden.json` output on both applications: the mapper is a pure
function of the extraction result and the loaded template, and the rendered
bytes are a function of its output. -/
theorem C8_mapper_idempotent (ed : List (String × String)) (load1 load2 : Json)
    (h : load1 = load2) :
    (map_data_to_bitwarden ed load1).map (dumpJson 0) =
      (map_data_to_bitwarden ed load2).map (dumpJson 0) := by
  rw [h]

theorem C8_mapper_idempotent_witness :
    bitwarden_id_template = bitwarden_id_template ∧
      (map_data_to_bitwarden mockData bitwarden_id_template).map (dumpJson 0) =
        (map_data_to_bitwarden mockData bitwarden_id_template).map (dumpJson 0) :=
  ⟨rfl, C8_mapper_idempotent mockData bitwarden_id_template bitwarden_id_template rfl⟩
